import Mathlib

/-!
Verification of the TTL cache coordinator of the nfl-backend service
(`src/main.py`).

The Python module keeps a global dictionary `cache` mapping string keys to
entries `{'data': ..., 'timestamp': ...}`, a constant `CACHE_DURATION = 300`,
a validity predicate `is_cache_valid`, and the coordinator
`get_cached_or_fetch(cache_key, fetch_function, ...)`.

Shallow embedding choices:
* the dictionary is an association list with Python-dict semantics:
  assigning to an existing key replaces the entry in place, assigning to a
  new key appends it; `len(cache)` is the list length;
* the two wall-clock readings (`datetime.now().timestamp()` inside
  `is_cache_valid` at line 21, and again when storing at line 36) become two
  explicit integer parameters of `get_cached_or_fetch`;
* `fetch_function(*args, **kwargs)` is opaque in the source, so its single
  invocation is modelled by a given outcome: either a value (the Python call
  returns) or an error (the call raises, which propagates out of
  `get_cached_or_fetch` before the store on line 34 runs);
* the returned record also counts how many times the fetch function was
  invoked during the call, so "at most once" claims are statable.
-/

/-- A cache entry, mirroring the dict literal built on lines 34-37 of
`src/main.py`: a payload and the wall-clock timestamp at which it was
stored. -/
structure CacheEntry (V : Type) where
  data : V
  timestamp : Int
  deriving DecidableEq, Repr

/-- The global `cache` dictionary: an association list from string keys to
entries, with Python-dict update semantics. -/
abbrev CacheMap (V : Type) : Type := List (String × CacheEntry V)

/-- Dictionary lookup: `cache[cache_key]` / `cache_key in cache`. Returns the
entry bound to the first (and, under the dict invariant, only) occurrence of
the key. -/
def lookupCache {V : Type} : CacheMap V → String → Option (CacheEntry V)
  | [], _ => none
  | (k, e) :: rest, key => if k = key then some e else lookupCache rest key

/-- Dictionary assignment `cache[cache_key] = entry`: replace the entry held
under an existing key in place, or append a binding for a new key. -/
def storeCache {V : Type} : CacheMap V → String → CacheEntry V → CacheMap V
  | [], key, e => [(key, e)]
  | (k, e0) :: rest, key, e =>
      if k = key then (key, e) :: rest else (k, e0) :: storeCache rest key e

/-- `len(cache)`, as reported by the `/api/health` endpoint (line 197 of
`src/main.py`). -/
def cacheSize {V : Type} (cache : CacheMap V) : Nat := cache.length

/-- The keys of the cache, in dictionary order. -/
def cacheKeys {V : Type} (cache : CacheMap V) : List String :=
  cache.map Prod.fst

/-- The dictionary invariant: no key is bound twice. It holds of the empty
dictionary and is preserved by `storeCache`. -/
def keyNodup {V : Type} (cache : CacheMap V) : Prop :=
  (cacheKeys cache).Nodup

/-- `CACHE_DURATION = 300  # 5 minutes in seconds` (line 13 of
`src/main.py`). -/
def CACHE_DURATION : Int := 300

/-- `is_cache_valid` (lines 15-22 of `src/main.py`): the key must be present
and the entry's age, measured against the current wall clock `now`, must be
strictly below `CACHE_DURATION`. -/
def is_cache_valid {V : Type} (cache : CacheMap V) (now : Int)
    (cache_key : String) : Bool :=
  match lookupCache cache cache_key with
  | none => false
  | some e => decide (now - e.timestamp < CACHE_DURATION)

/-- The single invocation of the opaque `fetch_function`: it either returns a
payload or raises an error. -/
inductive FetchOutcome (V E : Type) where
  | success (v : V)
  | failure (err : E)
  deriving DecidableEq, Repr

/-- Everything observable about one call to `get_cached_or_fetch`: the value
returned (or the error propagated), the cache dictionary after the call, and
how many times `fetch_function` was invoked during the call. -/
structure GFResult (V E : Type) where
  result : Except E V
  cache : CacheMap V
  fetchCalls : Nat

/-- `get_cached_or_fetch` (lines 24-39 of `src/main.py`). `t_check` is the
wall-clock reading taken inside `is_cache_valid` (line 21); `t_store` is the
later reading taken when the fresh entry is stored (line 36), after
`fetch_function` has returned. On a valid hit the stored payload is returned
and nothing else happens. Otherwise the fetch runs once: if it raises, the
error propagates with the dictionary untouched; if it returns, the result is
stored under the key with timestamp `t_store` and returned. -/
def get_cached_or_fetch {V E : Type} [Inhabited V] (cache : CacheMap V)
    (cache_key : String) (fetch_function : FetchOutcome V E)
    (t_check t_store : Int) : GFResult V E :=
  if is_cache_valid cache t_check cache_key then
    { result := Except.ok ((lookupCache cache cache_key).getD ⟨default, 0⟩).data
      cache := cache
      fetchCalls := 0 }
  else
    match fetch_function with
    | FetchOutcome.success v =>
        { result := Except.ok v
          cache := storeCache cache cache_key { data := v, timestamp := t_store }
          fetchCalls := 1 }
    | FetchOutcome.failure err =>
        { result := Except.error err
          cache := cache
          fetchCalls := 1 }

/-! ### Basic lemmas about the dictionary operations -/

theorem lookup_storeCache_self {V : Type} (cache : CacheMap V) (key : String)
    (e : CacheEntry V) : lookupCache (storeCache cache key e) key = some e := by
  induction cache with
  | nil => simp [storeCache, lookupCache]
  | cons p rest ih =>
      obtain ⟨k, e0⟩ := p
      by_cases hk : k = key
      · simp [storeCache, lookupCache, hk]
      · simp [storeCache, lookupCache, hk, ih]

theorem lookup_storeCache_ne {V : Type} (cache : CacheMap V)
    (key other : String) (e : CacheEntry V) (h : other ≠ key) :
    lookupCache (storeCache cache key e) other = lookupCache cache other := by
  have h2 : ¬ key = other := fun hk => h hk.symm
  induction cache with
  | nil => simp [storeCache, lookupCache, h2]
  | cons p rest ih =>
      obtain ⟨k, e0⟩ := p
      by_cases hk : k = key
      · subst hk
        simp [storeCache, lookupCache, h2]
      · simp [storeCache, lookupCache, hk, ih]

theorem length_storeCache_of_none {V : Type} (cache : CacheMap V)
    (key : String) (e : CacheEntry V) (h : lookupCache cache key = none) :
    (storeCache cache key e).length = cache.length + 1 := by
  induction cache with
  | nil => simp [storeCache]
  | cons p rest ih =>
      obtain ⟨k, e0⟩ := p
      by_cases hk : k = key
      · simp [lookupCache, hk] at h
      · simp [lookupCache, hk] at h
        simp [storeCache, hk, ih h]

theorem length_storeCache_of_some {V : Type} (cache : CacheMap V)
    (key : String) (e e0 : CacheEntry V)
    (h : lookupCache cache key = some e0) :
    (storeCache cache key e).length = cache.length := by
  induction cache with
  | nil => simp [lookupCache] at h
  | cons p rest ih =>
      obtain ⟨k, e1⟩ := p
      by_cases hk : k = key
      · simp [storeCache, hk]
      · simp [lookupCache, hk] at h
        simp [storeCache, hk, ih h]

theorem keys_storeCache {V : Type} (cache : CacheMap V) (key : String)
    (e : CacheEntry V) (h : lookupCache cache key = none) :
    cacheKeys (storeCache cache key e) = cacheKeys cache ++ [key] := by
  induction cache with
  | nil => simp [storeCache, cacheKeys]
  | cons p rest ih =>
      obtain ⟨k, e0⟩ := p
      by_cases hk : k = key
      · simp [lookupCache, hk] at h
      · simp [lookupCache, hk] at h
        simp [cacheKeys, storeCache, hk] at ih ⊢
        exact ih h

theorem keys_storeCache_of_some {V : Type} (cache : CacheMap V) (key : String)
    (e e0 : CacheEntry V) (h : lookupCache cache key = some e0) :
    cacheKeys (storeCache cache key e) = cacheKeys cache := by
  induction cache with
  | nil => simp [lookupCache] at h
  | cons p rest ih =>
      obtain ⟨k, e1⟩ := p
      by_cases hk : k = key
      · simp [cacheKeys, storeCache, hk]
      · simp [lookupCache, hk] at h
        simp [cacheKeys, storeCache, hk] at ih ⊢
        exact ih h

theorem cacheKeys_cons {V : Type} (k : String) (e : CacheEntry V)
    (rest : CacheMap V) : cacheKeys ((k, e) :: rest) = k :: cacheKeys rest :=
  rfl

/-- A key the lookup misses is not among the dictionary keys: packaging of
the `cache_key not in cache` test of line 17. -/
theorem not_mem_keys_of_lookup_none {V : Type} (cache : CacheMap V)
    (key : String) (h : lookupCache cache key = none) :
    key ∉ cacheKeys cache := by
  induction cache with
  | nil => intro hmem; simp [cacheKeys] at hmem
  | cons p rest ih =>
      obtain ⟨k, e⟩ := p
      intro hmem
      rw [cacheKeys_cons, List.mem_cons] at hmem
      by_cases hk : k = key
      · simp [lookupCache, hk] at h
      · simp [lookupCache, hk] at h
        rcases hmem with hmem | hmem
        · exact hk hmem.symm
        · exact ih h hmem

theorem keyNodup_storeCache {V : Type} (cache : CacheMap V) (key : String)
    (e : CacheEntry V) (h : keyNodup cache) :
    keyNodup (storeCache cache key e) := by
  rcases hl : lookupCache cache key with _ | e0
  · rw [keyNodup, keys_storeCache cache key e hl, List.nodup_append]
    refine ⟨h, List.nodup_singleton key, ?_⟩
    intro a ha hb
    rw [List.mem_singleton] at hb
    subst hb
    exact not_mem_keys_of_lookup_none cache a hl ha
  · rw [keyNodup, keys_storeCache_of_some cache key e e0 hl]
    exact h

/-! ### Unfolding lemmas for `is_cache_valid` and `get_cached_or_fetch` -/

theorem is_cache_valid_of_lookup_none {V : Type} (cache : CacheMap V)
    (now : Int) (key : String) (h : lookupCache cache key = none) :
    is_cache_valid cache now key = false := by
  simp [is_cache_valid, h]

theorem is_cache_valid_of_lookup_some {V : Type} (cache : CacheMap V)
    (now : Int) (key : String) (e : CacheEntry V)
    (h : lookupCache cache key = some e) :
    is_cache_valid cache now key = decide (now - e.timestamp < CACHE_DURATION) := by
  simp [is_cache_valid, h]

theorem is_cache_valid_iff {V : Type} (cache : CacheMap V) (now : Int)
    (key : String) :
    is_cache_valid cache now key = true ↔
      ∃ e, lookupCache cache key = some e ∧ now - e.timestamp < CACHE_DURATION := by
  rcases hl : lookupCache cache key with _ | e
  · simp [is_cache_valid, hl]
  · simp [is_cache_valid, hl]

theorem get_cached_or_fetch_of_valid {V E : Type} [Inhabited V]
    (cache : CacheMap V) (key : String) (ff : FetchOutcome V E)
    (t_check t_store : Int) (e : CacheEntry V)
    (hl : lookupCache cache key = some e)
    (hv : t_check - e.timestamp < CACHE_DURATION) :
    get_cached_or_fetch cache key ff t_check t_store =
      { result := Except.ok e.data, cache := cache, fetchCalls := 0 } := by
  have hvalid : is_cache_valid cache t_check key = true := by
    rw [is_cache_valid_of_lookup_some cache t_check key e hl]
    exact decide_eq_true hv
  simp [get_cached_or_fetch, hvalid, hl]

theorem get_cached_or_fetch_of_invalid_success {V E : Type} [Inhabited V]
    (cache : CacheMap V) (key : String) (v : V) (t_check t_store : Int)
    (h : is_cache_valid cache t_check key = false) :
    get_cached_or_fetch cache key
        (FetchOutcome.success v : FetchOutcome V E) t_check t_store =
      { result := Except.ok v
        cache := storeCache cache key { data := v, timestamp := t_store }
        fetchCalls := 1 } := by
  simp [get_cached_or_fetch, h]

theorem get_cached_or_fetch_of_invalid_failure {V E : Type} [Inhabited V]
    (cache : CacheMap V) (key : String) (err : E) (t_check t_store : Int)
    (h : is_cache_valid cache t_check key = false) :
    get_cached_or_fetch cache key (FetchOutcome.failure err) t_check t_store =
      { result := Except.error err, cache := cache, fetchCalls := 1 } := by
  simp [get_cached_or_fetch, h]

theorem gf_fetchCalls {V E : Type} [Inhabited V] (cache : CacheMap V)
    (key : String) (ff : FetchOutcome V E) (t_check t_store : Int) :
    (get_cached_or_fetch cache key ff t_check t_store).fetchCalls =
      if is_cache_valid cache t_check key then 0 else 1 := by
  by_cases h : is_cache_valid cache t_check key = true
  · simp [get_cached_or_fetch, h]
  · have hb : is_cache_valid cache t_check key = false := by
      cases hx : is_cache_valid cache t_check key
      · rfl
      · exact absurd hx h
    cases ff <;> simp [get_cached_or_fetch, hb]

/-! ### The claims -/

/-- Claim C1: if at call time the cache holds an entry for the key whose age
is strictly below the TTL, `get_cached_or_fetch` returns that entry's stored
payload with no error and the fetch function is not invoked. -/
theorem C1_cache_hit {V E : Type} [Inhabited V] (cache : CacheMap V)
    (key : String) (ff : FetchOutcome V E) (t_check t_store : Int)
    (e : CacheEntry V) (hl : lookupCache cache key = some e)
    (hfresh : t_check - e.timestamp < CACHE_DURATION) :
    (get_cached_or_fetch cache key ff t_check t_store).result =
      Except.ok e.data ∧
    (get_cached_or_fetch cache key ff t_check t_store).fetchCalls = 0 := by
  rw [get_cached_or_fetch_of_valid cache key ff t_check t_store e hl hfresh]
  exact ⟨rfl, rfl⟩

theorem C1_cache_hit_witness :
    (get_cached_or_fetch [("k", (⟨7, 10⟩ : CacheEntry Nat))] "k"
        (FetchOutcome.failure "boom" : FetchOutcome Nat String) 100 100).result =
      Except.ok 7 ∧
    (get_cached_or_fetch [("k", (⟨7, 10⟩ : CacheEntry Nat))] "k"
        (FetchOutcome.failure "boom" : FetchOutcome Nat String) 100 100).fetchCalls = 0 :=
  C1_cache_hit [("k", ⟨7, 10⟩)] "k" (FetchOutcome.failure "boom") 100 100
    ⟨7, 10⟩ (by decide) (by decide)

/-- Claim C2: on a miss or an expired entry, `get_cached_or_fetch` invokes
the fetch function once, and on success stores `{value, storedAt := t_store}`
under the key — replacing any prior binding wholesale — and returns the
fetched value with no error. -/
theorem C2_miss_refetch_stores {V E : Type} [Inhabited V] (cache : CacheMap V)
    (key : String) (v : V) (t_check t_store : Int)
    (hmiss : lookupCache cache key = none ∨
      ∃ e, lookupCache cache key = some e ∧
        CACHE_DURATION ≤ t_check - e.timestamp) :
    (get_cached_or_fetch cache key
        (FetchOutcome.success v : FetchOutcome V E) t_check t_store).result =
      Except.ok v ∧
    (get_cached_or_fetch cache key
        (FetchOutcome.success v : FetchOutcome V E) t_check t_store).fetchCalls = 1 ∧
    (get_cached_or_fetch cache key
        (FetchOutcome.success v : FetchOutcome V E) t_check t_store).cache =
      storeCache cache key { data := v, timestamp := t_store } ∧
    lookupCache (get_cached_or_fetch cache key
        (FetchOutcome.success v : FetchOutcome V E) t_check t_store).cache key =
      some { data := v, timestamp := t_store } := by
  have hinv : is_cache_valid cache t_check key = false := by
    rcases hmiss with h | ⟨e, he, hge⟩
    · exact is_cache_valid_of_lookup_none cache t_check key h
    · rw [is_cache_valid_of_lookup_some cache t_check key e he]
      exact decide_eq_false (not_lt.mpr hge)
  rw [get_cached_or_fetch_of_invalid_success cache key v t_check t_store hinv]
  exact ⟨rfl, rfl, rfl, lookup_storeCache_self cache key _⟩

theorem C2_miss_refetch_stores_witness :
    (get_cached_or_fetch [("k", (⟨1, 0⟩ : CacheEntry Nat))] "k"
        (FetchOutcome.success 9 : FetchOutcome Nat String) 300 301).result =
      Except.ok 9 ∧
    (get_cached_or_fetch [("k", (⟨1, 0⟩ : CacheEntry Nat))] "k"
        (FetchOutcome.success 9 : FetchOutcome Nat String) 300 301).fetchCalls = 1 ∧
    (get_cached_or_fetch [("k", (⟨1, 0⟩ : CacheEntry Nat))] "k"
        (FetchOutcome.success 9 : FetchOutcome Nat String) 300 301).cache =
      storeCache [("k", ⟨1, 0⟩)] "k" { data := 9, timestamp := 301 } ∧
    lookupCache (get_cached_or_fetch [("k", (⟨1, 0⟩ : CacheEntry Nat))] "k"
        (FetchOutcome.success 9 : FetchOutcome Nat String) 300 301).cache "k" =
      some { data := 9, timestamp := 301 } :=
  C2_miss_refetch_stores [("k", ⟨1, 0⟩)] "k" 9 300 301
    (Or.inr ⟨⟨1, 0⟩, by decide, by decide⟩)

/-- Claim C3: when the fetch function is invoked (no valid entry) and fails,
the error is propagated unchanged and the whole cache dictionary — including
any stale entry under the key — is exactly as before the call. -/
theorem C3_failure_leaves_cache_untouched {V E : Type} [Inhabited V]
    (cache : CacheMap V) (key : String) (err : E) (t_check t_store : Int)
    (hinv : is_cache_valid cache t_check key = false) :
    (get_cached_or_fetch cache key
        (FetchOutcome.failure err : FetchOutcome V E) t_check t_store).result =
      Except.error err ∧
    (get_cached_or_fetch cache key
        (FetchOutcome.failure err : FetchOutcome V E) t_check t_store).cache =
      cache ∧
    (get_cached_or_fetch cache key
        (FetchOutcome.failure err : FetchOutcome V E) t_check t_store).fetchCalls = 1 := by
  rw [get_cached_or_fetch_of_invalid_failure cache key err t_check t_store hinv]
  exact ⟨rfl, rfl, rfl⟩

theorem C3_failure_leaves_cache_untouched_witness :
    (get_cached_or_fetch [("k", (⟨5, 0⟩ : CacheEntry Nat))] "k"
        (FetchOutcome.failure "timeout" : FetchOutcome Nat String) 400 400).result =
      Except.error "timeout" ∧
    (get_cached_or_fetch [("k", (⟨5, 0⟩ : CacheEntry Nat))] "k"
        (FetchOutcome.failure "timeout" : FetchOutcome Nat String) 400 400).cache =
      [("k", ⟨5, 0⟩)] ∧
    (get_cached_or_fetch [("k", (⟨5, 0⟩ : CacheEntry Nat))] "k"
        (FetchOutcome.failure "timeout" : FetchOutcome Nat String) 400 400).fetchCalls = 1 :=
  C3_failure_leaves_cache_untouched [("k", ⟨5, 0⟩)] "k" "timeout" 400 400
    (by decide)

/-- Claim C4: validity is decided by a strict less-than comparison against
the process-wide constant of 300 seconds; an entry whose age is exactly 300
seconds is already invalid, so `get_cached_or_fetch` invokes the fetch
function. -/
theorem C4_ttl_strict_300 {V E : Type} [Inhabited V] (cache : CacheMap V)
    (key : String) (now : Int) :
    CACHE_DURATION = 300 ∧
    (is_cache_valid cache now key = true ↔
      ∃ e, lookupCache cache key = some e ∧ now - e.timestamp < 300) ∧
    (∀ e : CacheEntry V, lookupCache cache key = some e →
      now - e.timestamp = 300 →
      is_cache_valid cache now key = false ∧
      ∀ (ff : FetchOutcome V E) (t_store : Int),
        (get_cached_or_fetch cache key ff now t_store).fetchCalls = 1) := by
  refine ⟨rfl, is_cache_valid_iff cache now key, ?_⟩
  intro e he hb
  have hf : is_cache_valid cache now key = false := by
    rw [is_cache_valid_of_lookup_some cache now key e he]
    exact decide_eq_false (by rw [hb]; decide)
  refine ⟨hf, ?_⟩
  intro ff t_store
  rw [gf_fetchCalls cache key ff now t_store, hf]
  simp

theorem C4_ttl_strict_300_witness :
    is_cache_valid [("k", (⟨2, 0⟩ : CacheEntry Nat))] 300 "k" = false ∧
    (get_cached_or_fetch [("k", (⟨2, 0⟩ : CacheEntry Nat))] "k"
        (FetchOutcome.failure "down" : FetchOutcome Nat String) 300 300).fetchCalls = 1 :=
  ⟨((C4_ttl_strict_300 (E := String) [("k", (⟨2, 0⟩ : CacheEntry Nat))] "k" 300).2.2
      ⟨2, 0⟩ (by decide) (by decide)).1,
   ((C4_ttl_strict_300 (E := String) [("k", (⟨2, 0⟩ : CacheEntry Nat))] "k" 300).2.2
      ⟨2, 0⟩ (by decide) (by decide)).2 (FetchOutcome.failure "down") 300⟩

/-- Claim C5: one call to `get_cached_or_fetch` invokes the fetch function
exactly once when there is no valid entry, zero times on a hit, and never
more than once. -/
theorem C5_fetch_at_most_once {V E : Type} [Inhabited V] (cache : CacheMap V)
    (key : String) (ff : FetchOutcome V E) (t_check t_store : Int) :
    (get_cached_or_fetch cache key ff t_check t_store).fetchCalls =
      (if is_cache_valid cache t_check key then 0 else 1) ∧
    (get_cached_or_fetch cache key ff t_check t_store).fetchCalls ≤ 1 := by
  refine ⟨gf_fetchCalls cache key ff t_check t_store, ?_⟩
  rw [gf_fetchCalls cache key ff t_check t_store]
  by_cases h : is_cache_valid cache t_check key <;> simp [h]

/-- Claim C6: a call on one key neither reads nor mutates entries under other
keys: every other key's binding is unchanged by the call, and the call's
result and fetch count depend only on the binding of the key passed in. -/
theorem C6_key_isolation {V E : Type} [Inhabited V] (c c2 : CacheMap V)
    (key other : String) (ff : FetchOutcome V E) (t_check t_store : Int)
    (hne : other ≠ key)
    (hagree : lookupCache c key = lookupCache c2 key) :
    lookupCache (get_cached_or_fetch c key ff t_check t_store).cache other =
      lookupCache c other ∧
    (get_cached_or_fetch c key ff t_check t_store).result =
      (get_cached_or_fetch c2 key ff t_check t_store).result ∧
    (get_cached_or_fetch c key ff t_check t_store).fetchCalls =
      (get_cached_or_fetch c2 key ff t_check t_store).fetchCalls := by
  have hv : is_cache_valid c t_check key = is_cache_valid c2 t_check key := by
    unfold is_cache_valid
    rw [hagree]
  by_cases h : is_cache_valid c2 t_check key = true
  · have h1 : is_cache_valid c t_check key = true := by rw [hv]; exact h
    simp [get_cached_or_fetch, h, h1, hagree]
  · have hb : is_cache_valid c2 t_check key = false := by
      cases hx : is_cache_valid c2 t_check key
      · rfl
      · exact absurd hx h
    have h1 : is_cache_valid c t_check key = false := by rw [hv]; exact hb
    cases ff with
    | success v =>
        rw [get_cached_or_fetch_of_invalid_success c key v t_check t_store h1,
          get_cached_or_fetch_of_invalid_success c2 key v t_check t_store hb]
        exact ⟨lookup_storeCache_ne c key other _ hne, rfl, rfl⟩
    | failure err =>
        rw [get_cached_or_fetch_of_invalid_failure c key err t_check t_store h1,
          get_cached_or_fetch_of_invalid_failure c2 key err t_check t_store hb]
        exact ⟨rfl, rfl, rfl⟩

theorem C6_key_isolation_witness :
    lookupCache (get_cached_or_fetch
        [("a", (⟨1, 0⟩ : CacheEntry Nat)), ("b", ⟨2, 0⟩)] "a"
        (FetchOutcome.success 5 : FetchOutcome Nat String) 400 400).cache "b" =
      lookupCache [("a", (⟨1, 0⟩ : CacheEntry Nat)), ("b", ⟨2, 0⟩)] "b" ∧
    (get_cached_or_fetch [("a", (⟨1, 0⟩ : CacheEntry Nat)), ("b", ⟨2, 0⟩)] "a"
        (FetchOutcome.success 5 : FetchOutcome Nat String) 400 400).result =
      (get_cached_or_fetch [("a", (⟨1, 0⟩ : CacheEntry Nat))] "a"
        (FetchOutcome.success 5 : FetchOutcome Nat String) 400 400).result ∧
    (get_cached_or_fetch [("a", (⟨1, 0⟩ : CacheEntry Nat)), ("b", ⟨2, 0⟩)] "a"
        (FetchOutcome.success 5 : FetchOutcome Nat String) 400 400).fetchCalls =
      (get_cached_or_fetch [("a", (⟨1, 0⟩ : CacheEntry Nat))] "a"
        (FetchOutcome.success 5 : FetchOutcome Nat String) 400 400).fetchCalls :=
  C6_key_isolation [("a", ⟨1, 0⟩), ("b", ⟨2, 0⟩)] [("a", ⟨1, 0⟩)] "a" "b"
    (FetchOutcome.success 5) 400 400 (by decide) (by decide)

/-- Claim C7: a hit leaves the whole dictionary — value and stored timestamp
included — unchanged, so hits do not extend the entry's lifetime; a repeated
call while the entry is still valid returns the identical payload, invokes
the fetch function zero additional times, and again leaves the dictionary
unchanged. -/
theorem C7_idempotent_hits {V E : Type} [Inhabited V] (c : CacheMap V)
    (key : String) (ff1 ff2 : FetchOutcome V E) (ta ta2 tb tb2 : Int)
    (hva : is_cache_valid c ta key = true) :
    (get_cached_or_fetch c key ff1 ta ta2).cache = c ∧
    (get_cached_or_fetch c key ff1 ta ta2).fetchCalls = 0 ∧
    (is_cache_valid c tb key = true →
      (get_cached_or_fetch c key ff2 tb tb2).result =
        (get_cached_or_fetch c key ff1 ta ta2).result ∧
      (get_cached_or_fetch c key ff2 tb tb2).fetchCalls = 0 ∧
      (get_cached_or_fetch c key ff2 tb tb2).cache = c) := by
  refine ⟨?_, ?_, ?_⟩
  · simp [get_cached_or_fetch, hva]
  · simp [get_cached_or_fetch, hva]
  · intro hvb
    refine ⟨?_, ?_, ?_⟩ <;> simp [get_cached_or_fetch, hva, hvb]

theorem C7_idempotent_hits_witness :
    (get_cached_or_fetch [("k", (⟨3, 0⟩ : CacheEntry Nat))] "k"
        (FetchOutcome.failure "x" : FetchOutcome Nat String) 10 10).cache =
      [("k", ⟨3, 0⟩)] ∧
    (get_cached_or_fetch [("k", (⟨3, 0⟩ : CacheEntry Nat))] "k"
        (FetchOutcome.failure "x" : FetchOutcome Nat String) 10 10).fetchCalls = 0 ∧
    (is_cache_valid [("k", (⟨3, 0⟩ : CacheEntry Nat))] 20 "k" = true →
      (get_cached_or_fetch [("k", (⟨3, 0⟩ : CacheEntry Nat))] "k"
          (FetchOutcome.failure "y" : FetchOutcome Nat String) 20 20).result =
        (get_cached_or_fetch [("k", (⟨3, 0⟩ : CacheEntry Nat))] "k"
          (FetchOutcome.failure "x" : FetchOutcome Nat String) 10 10).result ∧
      (get_cached_or_fetch [("k", (⟨3, 0⟩ : CacheEntry Nat))] "k"
          (FetchOutcome.failure "y" : FetchOutcome Nat String) 20 20).fetchCalls = 0 ∧
      (get_cached_or_fetch [("k", (⟨3, 0⟩ : CacheEntry Nat))] "k"
          (FetchOutcome.failure "y" : FetchOutcome Nat String) 20 20).cache =
        [("k", ⟨3, 0⟩)]) :=
  C7_idempotent_hits [("k", ⟨3, 0⟩)] "k" (FetchOutcome.failure "x")
    (FetchOutcome.failure "y") 10 10 20 20 (by decide)

/-- Claim C9: the reported cache size is the number of distinct keys held:
it is 0 for the empty dictionary; a successful call on a key not previously
stored increases it by exactly one; any call on an already-stored key leaves
it unchanged; the no-duplicate-keys invariant is preserved, under which the
length equals the number of distinct keys. -/
theorem C9_cache_size {V E : Type} [Inhabited V] (c : CacheMap V)
    (key : String) (v : V) (t_check t_store : Int) :
    cacheSize ([] : CacheMap V) = 0 ∧
    (lookupCache c key = none →
      cacheSize (get_cached_or_fetch c key
        (FetchOutcome.success v : FetchOutcome V E) t_check t_store).cache =
        cacheSize c + 1) ∧
    (∀ e, lookupCache c key = some e → ∀ ff : FetchOutcome V E,
      cacheSize (get_cached_or_fetch c key ff t_check t_store).cache =
        cacheSize c) ∧
    (∀ ff : FetchOutcome V E, keyNodup c →
      keyNodup (get_cached_or_fetch c key ff t_check t_store).cache) ∧
    (keyNodup c → cacheSize c = (cacheKeys c).dedup.length) := by
  refine ⟨rfl, ?_, ?_, ?_, ?_⟩
  · intro hnone
    have hinv : is_cache_valid c t_check key = false :=
      is_cache_valid_of_lookup_none c t_check key hnone
    rw [get_cached_or_fetch_of_invalid_success c key v t_check t_store hinv]
    exact length_storeCache_of_none c key _ hnone
  · intro e he ff
    by_cases h : is_cache_valid c t_check key = true
    · simp [get_cached_or_fetch, h, cacheSize]
    · have hb : is_cache_valid c t_check key = false := by
        cases hx : is_cache_valid c t_check key
        · rfl
        · exact absurd hx h
      cases ff with
      | success w =>
          rw [get_cached_or_fetch_of_invalid_success c key w t_check t_store hb]
          exact length_storeCache_of_some c key _ e he
      | failure err =>
          rw [get_cached_or_fetch_of_invalid_failure c key err t_check t_store hb]
  · intro ff hnd
    by_cases h : is_cache_valid c t_check key = true
    · simp [get_cached_or_fetch, h, hnd]
    · have hb : is_cache_valid c t_check key = false := by
        cases hx : is_cache_valid c t_check key
        · rfl
        · exact absurd hx h
      cases ff with
      | success w =>
          rw [get_cached_or_fetch_of_invalid_success c key w t_check t_store hb]
          exact keyNodup_storeCache c key _ hnd
      | failure err =>
          rw [get_cached_or_fetch_of_invalid_failure c key err t_check t_store hb]
          exact hnd
  · intro hnd
    rw [List.dedup_eq_self.mpr hnd]
    simp [cacheSize, cacheKeys]

theorem C9_cache_size_witness :
    cacheSize (get_cached_or_fetch [("a", (⟨1, 0⟩ : CacheEntry Nat))] "b"
        (FetchOutcome.success 2 : FetchOutcome Nat String) 0 0).cache =
      cacheSize [("a", (⟨1, 0⟩ : CacheEntry Nat))] + 1 ∧
    cacheSize (get_cached_or_fetch [("a", (⟨1, 0⟩ : CacheEntry Nat))] "a"
        (FetchOutcome.failure "e" : FetchOutcome Nat String) 0 0).cache =
      cacheSize [("a", (⟨1, 0⟩ : CacheEntry Nat))] :=
  ⟨(C9_cache_size [("a", ⟨1, 0⟩)] "b" 2 0 0).2.1 (by decide),
   (C9_cache_size (E := String) [("a", (⟨1, 0⟩ : CacheEntry Nat))] "a" 1 0 0).2.2.1
     ⟨1, 0⟩ (by decide) (FetchOutcome.failure "e")⟩

/-- Claim C10: on a successful re-fetch the stored timestamp is the clock
reading taken after the fetch function returns (`t_check + d` for a fetch
taking `d` seconds), so the new entry's validity window starts at fetch
completion and lasts a full TTL from there. -/
theorem C10_store_time_after_fetch {V E : Type} [Inhabited V] (c : CacheMap V)
    (key : String) (v : V) (t_check d : Int)
    (hmiss : is_cache_valid c t_check key = false) (_hd : 0 ≤ d) :
    lookupCache (get_cached_or_fetch c key
        (FetchOutcome.success v : FetchOutcome V E) t_check (t_check + d)).cache key =
      some { data := v, timestamp := t_check + d } ∧
    ∀ t : Int,
      is_cache_valid (get_cached_or_fetch c key
          (FetchOutcome.success v : FetchOutcome V E) t_check (t_check + d)).cache t key =
        decide (t - (t_check + d) < CACHE_DURATION) := by
  rw [get_cached_or_fetch_of_invalid_success c key v t_check (t_check + d) hmiss]
  refine ⟨lookup_storeCache_self c key _, ?_⟩
  intro t
  rw [is_cache_valid_of_lookup_some _ t key _ (lookup_storeCache_self c key _)]

theorem C10_store_time_after_fetch_witness :
    lookupCache (get_cached_or_fetch ([] : CacheMap Nat) "k"
        (FetchOutcome.success 7 : FetchOutcome Nat String) 100 (100 + 5)).cache "k" =
      some { data := 7, timestamp := 100 + 5 } ∧
    is_cache_valid (get_cached_or_fetch ([] : CacheMap Nat) "k"
        (FetchOutcome.success 7 : FetchOutcome Nat String) 100 (100 + 5)).cache 405 "k" =
      false :=
  ⟨(C10_store_time_after_fetch [] "k" 7 100 5 (by decide) (by decide)).1,
   by
     rw [(C10_store_time_after_fetch ([] : CacheMap Nat) "k" (7 : Nat)
       100 5 (by decide) (by decide) (E := String)).2 405]
     decide⟩
